import Mathlib

/-!
Verification of the forecast ingestion-and-aggregation pipeline of
drcalifornia/painel_previsao (src/modelo.py) against its natural-language
specification.

The shallow embedding below translates the pipeline into Lean:
floating-point values become rationals, the pandas dataframe of hourly
records becomes a list of Row structures, timestamps become hours-since-
reference naturals (a calendar day is the quotient by 24), and the
side-effecting fetch (download into a named temporary file, extraction
of four GRIB variables) becomes an explicit effect record whose inputs
are the outcomes of the external calls.
-/

/-- A GRIB/xarray dataset is modelled as an association list from variable
name to a (placeholder) field value; merging with override semantics is
concatenation, since lookups take the first hit. -/
abbrev Dataset := List (String × ℚ)

/-- Variable renaming applied after the merge in abrir_gefs_grib
(rename_map of src/modelo.py line 59): 2t becomes t2m, 10u becomes u10,
10v becomes v10, other names pass through unchanged. -/
def renomear (n : String) : String :=
  if n = "2t" then "t2m" else if n = "10u" then "u10" else if n = "10v" then "v10" else n

/-- Extraction-and-merge core of abrir_gefs_grib (src/modelo.py lines 47-62).
The four arguments are the results of the four independent abrir_subset
calls (abrir_subset returns None on any failure, line 29-30, so each is an
Option).  The successful ones are collected, and if none succeeded the
function signals no usable data (None, line 53-55); otherwise they are
merged (override semantics: the first dataset providing a variable wins)
and renamed. -/
def abrir_gefs_extract (ds_t2m ds_tp ds_u10 ds_v10 : Option Dataset) : Option Dataset :=
  let dsets := [ds_t2m, ds_tp, ds_u10, ds_v10].filterMap id
  if dsets.isEmpty then none
  else some ((dsets.flatten).map (fun p => (renomear p.1, p.2)))

/-- Outcome of the external calls made by one invocation of
abrir_gefs_grib: whether the S3 download succeeded, the four subset
extraction results, and whether the merge/rename step itself raised. -/
structure GribOutcome where
  download_ok : Bool
  ds_t2m : Option Dataset
  ds_tp : Option Dataset
  ds_u10 : Option Dataset
  ds_v10 : Option Dataset
  merge_ok : Bool

/-- Effect summary of one invocation of abrir_gefs_grib: its returned
value, whether the scratch temporary file was created, and whether any
exit path deleted it. -/
structure FetchEffect where
  result : Option Dataset
  tmp_created : Bool
  tmp_deleted : Bool

/-- abrir_gefs_grib (src/modelo.py lines 32-66).  The temporary file is
created with delete := False (line 37) before the download; on download
failure the function returns None (lines 42-44); otherwise the four
subsets are extracted and merged, the outer try/except turning an
extraction-stage exception into None (lines 64-66).  No path of the
source contains an unlink or remove of the temporary file, so
tmp_deleted is false on every path. -/
def abrir_gefs_grib (o : GribOutcome) : FetchEffect :=
  if o.download_ok = false then
    { result := none, tmp_created := true, tmp_deleted := false }
  else if o.merge_ok = false then
    { result := none, tmp_created := true, tmp_deleted := false }
  else
    { result := abrir_gefs_extract o.ds_t2m o.ds_tp o.ds_u10 o.ds_v10,
      tmp_created := true, tmp_deleted := false }

/-- Longitude normalization of extrair_para_municipios
(src/modelo.py line 74): lambda x: x + 360 if x < 0 else x. -/
def lon_360 (x : ℚ) : ℚ := if x < 0 then x + 360 else x

/-! ### Orchestrator control flow (gerar_boletim_diario, src/modelo.py lines 95-141)

The orchestrator is modelled as a trace machine: the configuration records
whether the municipality CSV is readable and which of the four required
columns it has; the per-hour parameter records which forecast hours yield
a usable dataset (download plus extraction succeeded).  The result records
which hours a fetch was attempted for, whether the output file was
written, and the terminal error if any.  Fidelity notes: pd.read_csv
(line 96) fails only for an unreadable file and performs no column
validation; the per-hour loop (lines 103-112) always fetches first
(line 104) and only then touches the municipality columns inside
extrair_para_municipios (lines 74, 81, 87, 88), where a missing column
raises a KeyError that aborts the whole run uncaught; the empty-records
guard (lines 114-116) returns before any file is written, and the output
file is written only at line 140. -/

inductive PipeErr where
  | csv_unreadable
  | missing_column
  | total_failure
  deriving DecidableEq, Repr

structure PipeConfig where
  readable : Bool
  has_municipio : Bool
  has_uf : Bool
  has_lat : Bool
  has_lon : Bool
  deriving DecidableEq, Repr

structure PipeResult where
  fetches : List ℕ
  wrote_output : Bool
  err : Option PipeErr
  deriving DecidableEq, Repr

/-- True when the municipality table has all four required columns. -/
def cols_ok (c : PipeConfig) : Bool :=
  c.has_lon && c.has_lat && c.has_municipio && c.has_uf

/-- The forecast-hour schedule (src/modelo.py line 100):
range(0, 195, 3) followed by range(198, 840, 6). -/
def horas : List ℕ :=
  (List.range 65).map (fun i => 3 * i) ++ (List.range 107).map (fun i => 198 + 6 * i)

/-- One pass of the per-hour loop of gerar_boletim_diario, accumulating
attempted fetches (reversed) and the count of hours that contributed
records, followed by the empty-records guard. -/
def run_horas (c : PipeConfig) (ok : ℕ → Bool) :
    List ℕ → List ℕ → ℕ → PipeResult
  | [], fetched, nreg =>
      if nreg = 0 then { fetches := fetched.reverse, wrote_output := false,
                         err := some .total_failure }
      else { fetches := fetched.reverse, wrote_output := true, err := none }
  | h :: hs, fetched, nreg =>
      if ok h then
        if cols_ok c then run_horas c ok hs (h :: fetched) (nreg + 1)
        else { fetches := (h :: fetched).reverse, wrote_output := false,
               err := some .missing_column }
      else run_horas c ok hs (h :: fetched) nreg

/-- Control-flow model of gerar_boletim_diario: read the CSV, loop over
the schedule, write the output only when at least one hour contributed. -/
def gerar_boletim_trace (c : PipeConfig) (ok : ℕ → Bool) : PipeResult :=
  if c.readable then run_horas c ok horas [] 0
  else { fetches := [], wrote_output := false, err := some .csv_unreadable }

/-! ### Temporal aggregation (gerar_boletim_diario, src/modelo.py lines 118-136)

One row of the concatenated dataframe previsoes: one municipality at one
forecast timestamp.  data_previsao is the absolute forecast time in hours;
flooring a timestamp to day granularity (line 127) is division by 24. -/

structure Row where
  municipio : String
  uf : String
  data_previsao : ℕ
  t2m : ℚ
  tp : ℚ
  u10 : ℚ
  v10 : ℚ
  deriving DecidableEq, Repr

/-- One output row of the daily table df_diario. -/
structure Daily where
  municipio : String
  uf : String
  data_dia : ℕ
  t2m : ℚ
  tp : ℚ
  u10 : ℚ
  v10 : ℚ
  deriving DecidableEq, Repr

/-- Sort order of previsoes.sort_values(["municipio", "data_previsao"])
(src/modelo.py line 122): by municipality name, ties broken by forecast
timestamp.  The string comparison is reached only for distinct names. -/
def rowLe (a b : Row) : Prop :=
  if a.municipio = b.municipio then a.data_previsao ≤ b.data_previsao
  else a.municipio < b.municipio

instance : DecidableRel rowLe := fun a b => by
  unfold rowLe; infer_instance

instance : IsTotal Row rowLe := by
  constructor
  intro a b
  unfold rowLe
  rcases eq_or_ne a.municipio b.municipio with h | h
  · simp [h, Nat.le_total]
  · rw [if_neg h, if_neg (Ne.symm h)]
    exact h.lt_or_lt

instance : IsTrans Row rowLe := by
  constructor
  intro a b c hab hbc
  unfold rowLe at *
  rcases eq_or_ne a.municipio b.municipio with h1 | h1 <;>
    rcases eq_or_ne b.municipio c.municipio with h2 | h2 <;>
      simp [h1, h2] at hab hbc ⊢
  · simp [h1.trans h2, le_trans hab hbc]
  · simp [h1, h2, hbc]
  · simpa [h2 ▸ h1] using hab
  · rcases eq_or_ne a.municipio c.municipio with h3 | h3
    · exact absurd (h3 ▸ lt_trans hab hbc) (lt_irrefl _)
    · simp [h3, lt_trans hab hbc]

/-- The sort key of line 122; records agreeing on it are interchangeable
for the sort. -/
def sort_key (r : Row) : String × ℕ := (r.municipio, r.data_previsao)

/-- previsoes.sort_values(["municipio", "data_previsao"]) of line 122. -/
def sort_previsoes (rows : List Row) : List Row :=
  List.insertionSort rowLe rows

/-- Lookup in an association list from municipality name to the last seen
cumulative precipitation of that municipality. -/
def alookup (k : String) : List (String × ℚ) → Option ℚ
  | [] => none
  | (k', v) :: rest => if k = k' then some v else alookup k rest

/-- The per-municipality differencing of src/modelo.py lines 123-124:
previsoes.groupby("municipio")["tp"].diff().fillna(previsoes["tp"])
followed by .clip(lower=0).  Walking the (sorted) frame top to bottom,
each row's increment is its tp minus the tp of the most recent earlier
row of the same municipality (the groupby carries only the name, not the
state code); the first row of a municipality has a NaN diff, filled with
its own tp (fillna); every increment is then clamped at zero (clip).
Each row is returned paired with its tp_dif value. -/
def tp_dif_walk (m : List (String × ℚ)) : List Row → List (Row × ℚ)
  | [] => []
  | r :: rs =>
      let d := match alookup r.municipio m with
        | none => r.tp
        | some prev => r.tp - prev
      (r, max 0 d) :: tp_dif_walk ((r.municipio, r.tp) :: m) rs

/-- The tp_dif column in frame order. -/
def tp_difs (rows : List Row) : List ℚ :=
  (tp_dif_walk [] rows).map Prod.snd

/-- The calendar-day group key of lines 127-128: municipality name, state
code, and the forecast timestamp floored to day granularity. -/
def dayKey (r : Row) : String × String × ℕ :=
  (r.municipio, r.uf, r.data_previsao / 24)

/-- Order in which pandas emits the group keys of
groupby(["municipio", "uf", "data_dia"]) (line 128): ascending
lexicographically.  String comparison is reached only for distinct
components. -/
def keyLe (a b : String × String × ℕ) : Prop :=
  if a.1 = b.1 then
    (if a.2.1 = b.2.1 then a.2.2 ≤ b.2.2 else a.2.1 < b.2.1)
  else a.1 < b.1

instance : DecidableRel keyLe := fun a b => by
  unfold keyLe; infer_instance

/-- The group keys of the daily aggregation, in the order pandas emits
them: the distinct dayKey values of the frame, sorted. -/
def chaves (rows : List Row) : List (String × String × ℕ) :=
  List.insertionSort keyLe
    (((tp_dif_walk [] (sort_previsoes rows)).map (fun p => dayKey p.1)).dedup)

/-- The .agg of line 128-133 for one group key: mean of t2m, sum of
tp_dif (renamed back to tp), mean of u10 and of v10, over the rows of
the frame whose dayKey equals the group key. -/
def agg_group (k : String × String × ℕ) (wd : List (Row × ℚ)) : Daily :=
  let grp := wd.filter (fun p => dayKey p.1 = k)
  { municipio := k.1
    uf := k.2.1
    data_dia := k.2.2
    t2m := ((grp.map (fun p => p.1.t2m)).sum) / (grp.length : ℚ)
    tp := (grp.map (fun p => p.2)).sum
    u10 := ((grp.map (fun p => p.1.u10)).sum) / (grp.length : ℚ)
    v10 := ((grp.map (fun p => p.1.v10)).sum) / (grp.length : ℚ) }

/-- The unit conversion of line 136, applied to the aggregated table as a
separate final step: df_diario["t2m"] = df_diario["t2m"] - 273.15. -/
def conv_t2m (d : Daily) : Daily := { d with t2m := d.t2m - 273.15 }

/-- The daily table of gerar_boletim_diario (lines 118-136): sort the
concatenated hourly rows, derive the clamped per-step precipitation
increments, group by (municipio, uf, data_dia) aggregating by mean/sum,
then convert the temperature scale. -/
def df_diario (rows : List Row) : List Daily :=
  ((chaves rows).map
    (fun k => agg_group k (tp_dif_walk [] (sort_previsoes rows)))).map conv_t2m

/-- The per-location increment derivation of lines 123-124 restricted to
one location's cumulative series, tail part: prev is the cumulative value
of the previous record. -/
def incsAux (prev : ℚ) : List ℚ → List ℚ
  | [] => []
  | x :: xs => max 0 (x - prev) :: incsAux x xs

/-- The per-location increment derivation of lines 123-124 on one
location's cumulative precipitation series: the first record's diff is
NaN, filled with its own value, and every increment is clamped at zero. -/
def incs : List ℚ → List ℚ
  | [] => []
  | x :: xs => max 0 x :: incsAux x xs

/-- Modelled from the spec, for refinement comparison only: the increment
the claim text assigns to record r given the records before it in the
sorted frame, for a chosen notion of location key: the difference from
the immediately preceding record of the same location, the record's own
cumulative value if no such record exists, clamped at zero. -/
def claim_inc {K : Type} [DecidableEq K] (key : Row → K) (before : List Row) (r : Row) : ℚ :=
  match (before.filter (fun x => key x = key r)).getLast? with
  | none => max 0 r.tp
  | some x => max 0 (r.tp - x.tp)

/-- Modelled from the spec, for refinement comparison only: the increment
column the claim text prescribes for the records of the sorted frame,
each computed from the records before it. -/
def spec_incrementos {K : Type} [DecidableEq K] (key : Row → K) :
    List Row → List Row → List ℚ
  | _, [] => []
  | before, r :: rs => claim_inc key before r :: spec_incrementos key (before ++ [r]) rs

/-- The variable names present in a dataset. -/
def varNames (ds : Dataset) : List String := ds.map Prod.fst

/-- A municipality table missing the latitude column but otherwise valid. -/
def cfg_sem_lat : PipeConfig :=
  { readable := true, has_municipio := true, has_uf := true,
    has_lat := false, has_lon := true }

/-- A fully valid configuration. -/
def cfg_valida : PipeConfig :=
  { readable := true, has_municipio := true, has_uf := true,
    has_lat := true, has_lon := true }

/-! ### Helper lemmas -/

/-- The differencing walk decorates the rows without reordering them. -/
theorem tp_dif_walk_map_fst : ∀ (l : List Row) (m : List (String × ℚ)),
    (tp_dif_walk m l).map Prod.fst = l := by
  intro l
  induction l with
  | nil => intro m; rfl
  | cons r rs ih => intro m; simp [tp_dif_walk, ih]

/-- Filtering decorated rows on a property of the row and projecting agrees
with projecting first and then filtering. -/
theorem filter_fst_map {α : Type} (f : Row → α) (p : Row → Bool) :
    ∀ (l : List (Row × ℚ)),
      (l.filter (fun x => p x.1)).map (fun x => f x.1) =
        ((l.map Prod.fst).filter p).map f := by
  intro l
  induction l with
  | nil => rfl
  | cons x xs ih =>
      by_cases h : p x.1 <;> simp [List.filter_cons, h, ih]

/-- Every increment produced by the differencing tail is clamped, hence
non-negative. -/
theorem incsAux_nonneg : ∀ (xs : List ℚ) (prev : ℚ), ∀ y ∈ incsAux prev xs, 0 ≤ y := by
  intro xs
  induction xs with
  | nil => intro prev y hy; cases hy
  | cons x xs ih =>
      intro prev y hy
      rcases List.mem_cons.mp hy with rfl | hy'
      · exact le_max_left 0 _
      · exact ih x y hy'

/-- The partial sums of the clamped increments dominate the cumulative
series measured from the baseline prev. -/
theorem incsAux_ge : ∀ (xs : List ℚ) (prev : ℚ) (H : ℕ) (hH : H < xs.length),
    xs.get ⟨H, hH⟩ - prev ≤ ((incsAux prev xs).take (H + 1)).sum := by
  intro xs
  induction xs with
  | nil => intro prev H hH; exact absurd hH (by simp)
  | cons x xs ih =>
      intro prev H hH
      cases H with
      | zero =>
          simp only [incsAux, List.take_succ_cons, List.take_zero, List.sum_cons,
            List.sum_nil, add_zero, List.get]
          exact le_max_right 0 (x - prev)
      | succ H' =>
          simp only [incsAux, List.take_succ_cons, List.sum_cons, List.get]
          have h1 := ih x H' (by simpa using hH)
          have h2 : x - prev ≤ max 0 (x - prev) := le_max_right 0 (x - prev)
          linarith

/-- When the series including the baseline is non-decreasing, no clamping
fires and the partial sums telescope exactly. -/
theorem incsAux_eq : ∀ (xs : List ℚ) (prev : ℚ) (H : ℕ) (hH : H < xs.length),
    List.Chain' (· ≤ ·) (prev :: xs) →
    ((incsAux prev xs).take (H + 1)).sum = xs.get ⟨H, hH⟩ - prev := by
  intro xs
  induction xs with
  | nil => intro prev H hH; exact absurd hH (by simp)
  | cons x xs ih =>
      intro prev H hH hc
      have hpx : prev ≤ x := (List.chain'_cons.mp hc).1
      have hmax : max 0 (x - prev) = x - prev := max_eq_right (by linarith)
      cases H with
      | zero =>
          simp only [incsAux, List.take_succ_cons, List.take_zero, List.sum_cons,
            List.sum_nil, add_zero, List.get]
          exact hmax
      | succ H' =>
          simp only [incsAux, List.take_succ_cons, List.sum_cons, List.get]
          have h1 := ih x H' (by simpa using hH) (List.chain'_cons.mp hc).2
          rw [hmax, h1]
          ring

/-- C9: before grid lookup every location longitude is normalized into the
grid's 0-360 convention by adding 360 to any negative value, so a negative
longitude x (with x + 360 back in range, as for -50.0 versus 310.0) is
treated identically to x + 360 for interpolation purposes. -/
theorem lon_360_normalizes_negative (x : ℚ) (h1 : x < 0) (h2 : 0 ≤ x + 360) :
    lon_360 x = x + 360 ∧ lon_360 x = lon_360 (x + 360) := by
  constructor
  · rw [lon_360, if_pos h1]
  · rw [lon_360, lon_360, if_pos h1, if_neg (not_lt.mpr h2)]

/-- Witness for C9 at the spec's concrete pair: -50.0 is normalized to 310.0
and treated identically to an input of 310.0. -/
theorem lon_360_normalizes_negative_witness : lon_360 (-50) = lon_360 310 := by
  have h := (lon_360_normalizes_negative (-50) (by norm_num) (by norm_num)).2
  norm_num at h
  exact h

/-- C10 counterexample: the claim asserts that an input ≤ -360 remains
negative after normalization, but at the input -360 the code produces
-360 + 360 = 0, which is not negative. -/
theorem lon_360_boundary_counterexample :
    lon_360 (-360) = 0 ∧ ¬ lon_360 (-360) < 0 := by
  constructor <;> rw [lon_360, if_pos (by norm_num : (-360 : ℚ) < 0)] <;> norm_num

/-- C10 (amended): the normalization changes only strictly negative inputs
and adds exactly 360 once: the value used for lookup is x + 360 if x < 0
and exactly x otherwise; an input ≥ 360 (e.g. 370.0) passes through
unchanged rather than being reduced modulo 360, and an input strictly
below -360 remains negative after normalization. -/
theorem lon_360_passthrough_amended (x : ℚ) :
    (0 ≤ x → lon_360 x = x) ∧ (x < 0 → lon_360 x = x + 360) ∧
    ((360 : ℚ) ≤ x → lon_360 x = x) ∧ (x < -360 → lon_360 x < 0) := by
  refine ⟨fun h => ?_, fun h => ?_, fun h => ?_, fun h => ?_⟩
  · rw [lon_360, if_neg (not_lt.mpr h)]
  · rw [lon_360, if_pos h]
  · rw [lon_360, if_neg (not_lt.mpr (le_trans (by norm_num) h))]
  · rw [lon_360, if_pos (lt_trans h (by norm_num))]
    linarith

/-- Witness for the amended C10: 370.0 passes through unchanged, and
-400.0 is still negative after normalization. -/
theorem lon_360_passthrough_amended_witness :
    lon_360 370 = 370 ∧ lon_360 (-400) < 0 :=
  ⟨(lon_360_passthrough_amended 370).2.2.1 (by norm_num),
   (lon_360_passthrough_amended (-400)).2.2.2 (by norm_num)⟩

/-- C5 (code divergence): on every exit path of abrir_gefs_grib — download
failure, extraction/merge error, and success alike — the scratch temporary
file is created but never deleted: the source opens it with delete=False
(line 37) and contains no unlink or remove on any path, contradicting the
claimed scoped acquisition with guaranteed release. -/
theorem abrir_gefs_grib_never_deletes_tmp (o : GribOutcome) :
    (abrir_gefs_grib o).tmp_created = true ∧ (abrir_gefs_grib o).tmp_deleted = false := by
  unfold abrir_gefs_grib
  split
  · exact ⟨rfl, rfl⟩
  · split
    · exact ⟨rfl, rfl⟩
    · exact ⟨rfl, rfl⟩

/-- C6 (code divergence): with a readable municipality table that lacks the
latitude column and all downloads succeeding, the pipeline attempts the
fetch for forecast hour 0 before aborting on the missing column; the run
therefore performs remote retrieval under an invalid configuration, against
the claimed fail-fast behaviour. -/
theorem fetch_happens_before_column_error :
    gerar_boletim_trace cfg_sem_lat (fun _ => true) =
      { fetches := [0], wrote_output := false,
        err := some PipeErr.missing_column } := by
  decide

/-- C7: each of the four variables is extracted independently, so the merged
result of abrir_gefs_grib is None exactly when all four subset extractions
failed, and every successfully extracted dataset contributes all its
variables (renamed to the canonical names) to the merged result, whatever
happened to the other three. -/
theorem extractor_independence (a b c d : Option Dataset) :
    (abrir_gefs_extract a b c d = none ↔
      a = none ∧ b = none ∧ c = none ∧ d = none) ∧
    (∀ ds, some ds ∈ [a, b, c, d] →
      ∃ m, abrir_gefs_extract a b c d = some m ∧
        ∀ v ∈ varNames ds, renomear v ∈ varNames m) := by
  constructor
  · cases a <;> cases b <;> cases c <;> cases d <;> simp [abrir_gefs_extract]
  · intro ds hds
    have hmem : ds ∈ [a, b, c, d].filterMap id :=
      List.mem_filterMap.mpr ⟨some ds, hds, rfl⟩
    have hne : ¬ ([a, b, c, d].filterMap id).isEmpty = true := by
      cases h : [a, b, c, d].filterMap id with
      | nil => rw [h] at hmem; cases hmem
      | cons x xs => simp [h]
    refine ⟨(([a, b, c, d].filterMap id).flatten).map (fun p => (renomear p.1, p.2)),
      ?_, ?_⟩
    · rw [abrir_gefs_extract]
      exact if_neg hne
    · intro v hv
      obtain ⟨p, hp, rfl⟩ := List.mem_map.mp hv
      exact List.mem_map.mpr ⟨(renomear p.1, p.2),
        List.mem_map.mpr ⟨p, List.mem_flatten.mpr ⟨ds, hmem, hp⟩, rfl⟩, rfl⟩

/-- Witness for C7: with only the 10-metre wind u subset succeeding, the
extractor still returns a merged dataset and it carries the canonical
variable name u10. -/
theorem extractor_independence_witness :
    ∃ m, abrir_gefs_extract none none (some [("10u", 7)]) none = some m ∧
      "u10" ∈ varNames m := by
  obtain ⟨m, hm, hv⟩ :=
    (extractor_independence none none (some [("10u", 7)]) none).2
      [("10u", 7)] (by simp)
  refine ⟨m, hm, ?_⟩
  have h := hv "10u" (by simp [varNames])
  simpa [renomear] using h

/-- The per-hour loop writes the output exactly when it already accumulated
a record or some remaining hour contributes one, and reports total failure
whenever it does not write. -/
theorem run_horas_wrote (c : PipeConfig) (ok : ℕ → Bool) (hc : cols_ok c = true) :
    ∀ (hs : List ℕ) (fetched : List ℕ) (nreg : ℕ),
      ((run_horas c ok hs fetched nreg).wrote_output = true ↔
        (nreg ≠ 0 ∨ ∃ h ∈ hs, ok h = true)) ∧
      ((run_horas c ok hs fetched nreg).wrote_output = false →
        (run_horas c ok hs fetched nreg).err = some PipeErr.total_failure) := by
  intro hs
  induction hs with
  | nil =>
      intro fetched nreg
      by_cases h : nreg = 0
      · subst h; simp [run_horas]
      · simp [run_horas, h]
  | cons a t ih =>
      intro fetched nreg
      by_cases hok : ok a = true
      · have h2 := ih (a :: fetched) (nreg + 1)
        simp only [run_horas, hok, hc, if_true]
        constructor
        · rw [h2.1]
          constructor
          · intro _; exact Or.inr ⟨a, List.mem_cons_self a t, hok⟩
          · intro _; exact Or.inl (Nat.succ_ne_zero nreg)
        · exact h2.2
      · have h2 := ih (a :: fetched) nreg
        have hok' : ok a = false := by
          cases h : ok a
          · rfl
          · exact absurd h hok
        simp only [run_horas, hok', Bool.false_eq_true, if_false]
        constructor
        · rw [h2.1]
          constructor
          · rintro (h | ⟨x, hx, hxo⟩)
            · exact Or.inl h
            · exact Or.inr ⟨x, List.mem_cons_of_mem a hx, hxo⟩
          · rintro (h | ⟨x, hx, hxo⟩)
            · exact Or.inl h
            · rcases List.mem_cons.mp hx with rfl | hx'
              · rw [hok'] at hxo; cases hxo
              · exact Or.inr ⟨x, hx', hxo⟩
        · exact h2.2

/-- C8: under a valid configuration the output file is written exactly when
at least one scheduled forecast hour yields a usable record, and whenever
nothing is written the run terminates reporting total failure. -/
theorem output_written_iff_usable_hour (c : PipeConfig) (ok : ℕ → Bool)
    (hr : c.readable = true) (hc : cols_ok c = true) :
    ((gerar_boletim_trace c ok).wrote_output = true ↔ ∃ h ∈ horas, ok h = true) ∧
    ((gerar_boletim_trace c ok).wrote_output = false →
      (gerar_boletim_trace c ok).err = some PipeErr.total_failure) := by
  unfold gerar_boletim_trace
  rw [hr]
  simp only [if_true]
  have h := run_horas_wrote c ok hc horas [] 0
  constructor
  · rw [h.1]
    simp
  · exact h.2

/-- Witness for C8: when no hour yields usable data the run writes nothing
and reports total failure. -/
theorem output_written_iff_usable_hour_witness :
    (gerar_boletim_trace cfg_valida (fun _ => false)).wrote_output = false ∧
    (gerar_boletim_trace cfg_valida (fun _ => false)).err =
      some PipeErr.total_failure := by
  have h := output_written_iff_usable_hour cfg_valida (fun _ => false) rfl rfl
  have hw : (gerar_boletim_trace cfg_valida (fun _ => false)).wrote_output = false := by
    cases hb : (gerar_boletim_trace cfg_valida (fun _ => false)).wrote_output
    · rfl
    · obtain ⟨x, _, hx⟩ := h.1.mp hb
      cases hx
  exact ⟨hw, h.2 hw⟩

/-- C2 counterexample: for the cumulative series 5.0 then 3.0 the derived
increments are 5.0 and 0.0, whose sum 5.0 is strictly greater than the
cumulative value 3.0 at the last hour — the claimed inequality (sum of
increments ≤ cumulative value) is backwards: clamping negative excursions
to zero can only raise the sum above the cumulative value. -/
theorem incs_sum_le_counterexample :
    incs [(5 : ℚ), 3] = [5, 0] ∧ ¬ ((incs [(5 : ℚ), 3]).sum ≤ 3) := by
  constructor
  · norm_num [incs, incsAux, max_def]
  · norm_num [incs, incsAux, max_def]

/-- C2 (amended): for every cumulative precipitation series of one location,
each derived increment is ≥ 0, and the sum of the derived increments up to
hour H is greater than or equal to the original cumulative value at H, with
equality when the series is non-negative and monotonically non-decreasing. -/
theorem incs_sum_ge_cumulative (xs : List ℚ) (H : ℕ) (hH : H < xs.length) :
    (∀ y ∈ incs xs, 0 ≤ y) ∧
    xs.get ⟨H, hH⟩ ≤ ((incs xs).take (H + 1)).sum ∧
    ((∀ y ∈ xs, 0 ≤ y) → List.Chain' (· ≤ ·) xs →
      ((incs xs).take (H + 1)).sum = xs.get ⟨H, hH⟩) := by
  cases xs with
  | nil => exact absurd hH (by simp)
  | cons x xs' =>
      refine ⟨?_, ?_, ?_⟩
      · intro y hy
        rcases List.mem_cons.mp hy with rfl | hy'
        · exact le_max_left 0 x
        · exact incsAux_nonneg xs' x y hy'
      · cases H with
        | zero =>
            simp only [incs, List.take_succ_cons, List.take_zero, List.sum_cons,
              List.sum_nil, add_zero, List.get]
            exact le_max_right 0 x
        | succ H' =>
            simp only [incs, List.take_succ_cons, List.sum_cons, List.get]
            have h1 := incsAux_ge xs' x H' (by simpa using hH)
            have h2 : x ≤ max 0 x := le_max_right 0 x
            linarith
      · intro hnn hc
        have hx0 : max 0 x = x := max_eq_right (hnn x (List.mem_cons_self x xs'))
        cases H with
        | zero =>
            simp only [incs, List.take_succ_cons, List.take_zero, List.sum_cons,
              List.sum_nil, add_zero, List.get]
            exact hx0
        | succ H' =>
            simp only [incs, List.take_succ_cons, List.sum_cons, List.get]
            have h1 := incsAux_eq xs' x H' (by simpa using hH) hc
            rw [hx0, h1]
            ring

/-- Witness for the amended C2 at the spec's monotone scenario 0, 2, 5:
the increment sum up to the last hour equals the cumulative value 5. -/
theorem incs_sum_ge_cumulative_witness :
    [(0 : ℚ), 2, 5].get ⟨2, by norm_num⟩ ≤ ((incs [(0 : ℚ), 2, 5]).take 3).sum ∧
    ((incs [(0 : ℚ), 2, 5]).take 3).sum = [(0 : ℚ), 2, 5].get ⟨2, by norm_num⟩ := by
  have h := incs_sum_ge_cumulative [(0 : ℚ), 2, 5] 2 (by norm_num)
  exact ⟨h.2.1, h.2.2 (by norm_num) (by norm_num [List.chain'_cons])⟩

/-- Under the invariant that the walk state maps every municipality name to
the cumulative precipitation of its most recent earlier row, the
differencing walk of lines 123-124 emits exactly the increments the claim
text prescribes when the location is taken to be the municipality name
alone. -/
theorem tp_dif_walk_eq_spec : ∀ (l pre : List Row) (m : List (String × ℚ)),
    (∀ name, alookup name m =
      ((pre.filter (fun x => x.municipio = name)).getLast?).map Row.tp) →
    (tp_dif_walk m l).map Prod.snd = spec_incrementos (fun r => r.municipio) pre l := by
  intro l
  induction l with
  | nil => intro pre m hm; rfl
  | cons r rs ih =>
      intro pre m hm
      have hstep : ∀ name, alookup name ((r.municipio, r.tp) :: m) =
          (((pre ++ [r]).filter (fun x => x.municipio = name)).getLast?).map Row.tp := by
        intro name
        rw [List.filter_append]
        by_cases h : r.municipio = name
        · have he : List.filter (fun x => decide (x.municipio = name)) [r] = [r] := by
            simp [h]
          rw [he, List.getLast?_concat]
          simp [alookup, h]
        · have he : List.filter (fun x => decide (x.municipio = name)) [r] = [] := by
            simp [h]
          rw [he, List.append_nil]
          rw [alookup, if_neg (fun hn => h hn.symm)]
          exact hm name
      simp only [tp_dif_walk, spec_incrementos, List.map_cons]
      congr 1
      · rw [hm r.municipio]
        simp only [claim_inc]
        cases hg : (List.filter (fun x => decide (x.municipio = r.municipio)) pre).getLast? with
        | none => rfl
        | some x => rfl
      · exact ih (pre ++ [r]) ((r.municipio, r.tp) :: m) hstep

/-- The spec's first end-to-end scenario: three forecast hours 0, 3, 6 of
one location with cumulative precipitation 0.0, 2.0, 5.0. -/
def ex_horas : List Row :=
  [{ municipio := "A", uf := "S", data_previsao := 0, t2m := 280, tp := 0, u10 := 0, v10 := 0 },
   { municipio := "A", uf := "S", data_previsao := 3, t2m := 280, tp := 2, u10 := 0, v10 := 0 },
   { municipio := "A", uf := "S", data_previsao := 6, t2m := 280, tp := 5, u10 := 0, v10 := 0 }]

/-- The spec's reset scenario: cumulative precipitation 5.0 then 3.0. -/
def ex_reset : List Row :=
  [{ municipio := "A", uf := "S", data_previsao := 0, t2m := 280, tp := 5, u10 := 0, v10 := 0 },
   { municipio := "A", uf := "S", data_previsao := 3, t2m := 280, tp := 3, u10 := 0, v10 := 0 }]

/-- Two municipalities sharing a name in different states. -/
def ex_par_uf : List Row :=
  [{ municipio := "X", uf := "AA", data_previsao := 0, t2m := 280, tp := 10, u10 := 0, v10 := 0 },
   { municipio := "X", uf := "BB", data_previsao := 1, t2m := 280, tp := 1, u10 := 0, v10 := 0 }]

/-- C1 counterexample: the code's groupby("municipio") (line 123) keys the
differencing on the municipality name alone, not on the (name, state code)
pair the claim names as the location.  For two municipalities both named X
in states AA and BB, the first record of (X, BB) should, per the claim, use
its own cumulative value 1.0 as its increment, but the code differences it
against the (X, AA) record and clamps, yielding 0.0. -/
theorem tp_dif_location_pair_counterexample :
    tp_difs (sort_previsoes ex_par_uf) ≠
      spec_incrementos (fun r => (r.municipio, r.uf)) [] (sort_previsoes ex_par_uf) := by
  have hAB : ("AA" : String) ≠ "BB" := by decide
  norm_num [tp_difs, ex_par_uf, sort_previsoes, List.insertionSort,
    List.orderedInsert, rowLe, tp_dif_walk, alookup, max_def,
    spec_incrementos, claim_inc, hAB]

/-- C1 (amended): for the concatenated hourly records sorted by
(municipality name, forecast timestamp) ascending — the differencing key is
the municipality name alone, the state code playing no part — the per-step
precipitation increment of every record equals its cumulative precipitation
minus that of the immediately preceding record of the same municipality
name, the very first record of each name uses its own cumulative value, and
every increment is clamped at zero.  In particular cumulative readings
0.0, 2.0, 5.0 over hours 0, 3, 6 yield increments 0.0, 2.0, 3.0 with daily
sum 5.0, and readings 5.0 then 3.0 yield increments 5.0 then 0.0. -/
theorem tp_dif_nearest_same_name (rows : List Row) :
    tp_difs (sort_previsoes rows) =
      spec_incrementos (fun r => r.municipio) [] (sort_previsoes rows) ∧
    tp_difs (sort_previsoes ex_horas) = [0, 2, 3] ∧
    (df_diario ex_horas).map Daily.tp = [5] ∧
    tp_difs (sort_previsoes ex_reset) = [5, 0] := by
  refine ⟨?_, ?_, ?_, ?_⟩
  · exact tp_dif_walk_eq_spec (sort_previsoes rows) [] [] (fun name => rfl)
  · norm_num [tp_difs, ex_horas, sort_previsoes, List.insertionSort,
      List.orderedInsert, rowLe, tp_dif_walk, alookup, max_def]
  · norm_num [df_diario, chaves, ex_horas, sort_previsoes, List.insertionSort,
      List.orderedInsert, rowLe, tp_dif_walk, alookup, max_def, dayKey,
      agg_group, conv_t2m, List.dedup_cons_of_mem, List.dedup_cons_of_not_mem]
  · norm_num [tp_difs, ex_reset, sort_previsoes, List.insertionSort,
      List.orderedInsert, rowLe, tp_dif_walk, alookup, max_def]

/-- Two rows below one another in both directions of the sort order agree
on the sort key. -/
theorem rowLe_antisymm_key {a b : Row} (h1 : rowLe a b) (h2 : rowLe b a) :
    sort_key a = sort_key b := by
  unfold rowLe at h1 h2
  by_cases h : a.municipio = b.municipio
  · rw [if_pos h] at h1
    rw [if_pos h.symm] at h2
    simp [sort_key, h, le_antisymm h1 h2]
  · rw [if_neg h] at h1
    rw [if_neg (Ne.symm h)] at h2
    exact absurd (lt_trans h1 h2) (lt_irrefl _)

/-- Two sorted lists that are permutations of one another and whose sort
keys are pairwise distinct are equal. -/
theorem sorted_perm_eq : ∀ {l₁ l₂ : List Row}, l₁.Perm l₂ →
    l₁.Sorted rowLe → l₂.Sorted rowLe →
    l₁.Pairwise (fun a b => sort_key a ≠ sort_key b) → l₁ = l₂ := by
  intro l₁
  induction l₁ with
  | nil =>
      intro l₂ hp _ _ _
      exact (hp.symm.eq_nil).symm
  | cons a t ih =>
      intro l₂ hp hs1 hs2 hd
      cases l₂ with
      | nil => cases hp.eq_nil
      | cons b t₂ =>
          have hb : b ∈ a :: t := hp.symm.subset (List.mem_cons_self b t₂)
          have hba : b = a := by
            rcases List.mem_cons.mp hb with h | h
            · exact h
            · exfalso
              have hab : rowLe a b := (List.sorted_cons.mp hs1).1 b h
              have hkey : sort_key a ≠ sort_key b := (List.pairwise_cons.mp hd).1 b h
              have ha2 : a ∈ b :: t₂ := hp.subset (List.mem_cons_self a t)
              rcases List.mem_cons.mp ha2 with h2 | h2
              · exact hkey (h2 ▸ rfl)
              · exact hkey (rowLe_antisymm_key hab ((List.sorted_cons.mp hs2).1 a h2))
          subst hba
          have ht : t.Perm t₂ := hp.cons_inv
          rw [ih ht (List.sorted_cons.mp hs1).2 (List.sorted_cons.mp hs2).2
            (List.pairwise_cons.mp hd).2]

/-- C3 (amended): provided no two hourly records share the same sort key
(municipality name, forecast timestamp) — as holds whenever municipality
names are unique — running the Temporal Aggregator on any permutation of
the records produces exactly the same daily table. -/
theorem df_diario_perm_invariant (l₁ l₂ : List Row) (hp : l₁.Perm l₂)
    (hd : l₁.Pairwise (fun a b => sort_key a ≠ sort_key b)) :
    df_diario l₁ = df_diario l₂ := by
  have hs : sort_previsoes l₁ = sort_previsoes l₂ := by
    apply sorted_perm_eq
    · exact (List.perm_insertionSort rowLe l₁).trans
        (hp.trans (List.perm_insertionSort rowLe l₂).symm)
    · exact List.sorted_insertionSort rowLe l₁
    · exact List.sorted_insertionSort rowLe l₂
    · exact ((List.perm_insertionSort rowLe l₁).pairwise_iff
        (fun h => Ne.symm h)).mpr hd
  unfold df_diario chaves
  rw [hs]

/-- Witness for the amended C3: swapping two records of one municipality at
distinct forecast hours leaves the daily table unchanged. -/
theorem df_diario_perm_invariant_witness :
    df_diario
        [{ municipio := "A", uf := "S", data_previsao := 0, t2m := 280, tp := 1, u10 := 0, v10 := 0 },
         { municipio := "A", uf := "S", data_previsao := 3, t2m := 281, tp := 2, u10 := 0, v10 := 0 }] =
      df_diario
        [{ municipio := "A", uf := "S", data_previsao := 3, t2m := 281, tp := 2, u10 := 0, v10 := 0 },
         { municipio := "A", uf := "S", data_previsao := 0, t2m := 280, tp := 1, u10 := 0, v10 := 0 }] :=
  df_diario_perm_invariant _ _
    (List.Perm.swap _ _ [])
    (by simp [sort_key])

/-- Three records of one municipality and state at the same forecast
timestamp, in two orders that differ only by a swap of the last two. -/
def ex_tie (q : ℚ) : Row :=
  { municipio := "X", uf := "U", data_previsao := 0, t2m := 280, tp := q, u10 := 0, v10 := 0 }

/-- C3 counterexample: with tied sort keys the claim fails.  Three records
of one location at the same timestamp with cumulative values 5, 0, 1 give
clamped increments 5, 0, 1 (daily sum 6), while the permuted order
5, 1, 0 gives increments 5, 0, 0 (daily sum 5): the code sorts only by
(municipality, timestamp), so the relative order of tied records — and
with it the differencing — follows the input order. -/
theorem df_diario_perm_counterexample :
    (List.Perm [ex_tie 5, ex_tie 0, ex_tie 1] [ex_tie 5, ex_tie 1, ex_tie 0]) ∧
    df_diario [ex_tie 5, ex_tie 0, ex_tie 1] ≠ df_diario [ex_tie 5, ex_tie 1, ex_tie 0] := by
  constructor
  · exact List.Perm.cons _ (List.Perm.swap _ _ [])
  · intro h
    have h1 : (df_diario [ex_tie 5, ex_tie 0, ex_tie 1]).map Daily.tp = [6] := by
      norm_num [df_diario, chaves, ex_tie, sort_previsoes, List.insertionSort,
        List.orderedInsert, rowLe, tp_dif_walk, alookup, max_def, dayKey,
        agg_group, conv_t2m, List.dedup_cons_of_mem, List.dedup_cons_of_not_mem]
    have h2 : (df_diario [ex_tie 5, ex_tie 1, ex_tie 0]).map Daily.tp = [5] := by
      norm_num [df_diario, chaves, ex_tie, sort_previsoes, List.insertionSort,
        List.orderedInsert, rowLe, tp_dif_walk, alookup, max_def, dayKey,
        agg_group, conv_t2m, List.dedup_cons_of_mem, List.dedup_cons_of_not_mem]
    rw [h, h2] at h1
    cases h1

/-- Filtering the decorated frame on the day key of the underlying row and
projecting the temperature (or counting) agrees with doing the same on the
bare rows. -/
theorem grp_proj (k : String × String × ℕ) :
    ∀ (l : List (Row × ℚ)),
      ((l.filter (fun x => dayKey x.1 = k)).map (fun x => x.1.t2m)) =
        ((l.map Prod.fst).filter (fun r => dayKey r = k)).map Row.t2m ∧
      (l.filter (fun x => dayKey x.1 = k)).length =
        ((l.map Prod.fst).filter (fun r => dayKey r = k)).length := by
  intro l
  induction l with
  | nil => exact ⟨rfl, rfl⟩
  | cons x xs ih =>
      by_cases h : dayKey x.1 = k <;>
        simp [List.filter_cons, h, ih.1, ih.2]

/-- C4: for every row of the daily table, the output mean temperature
equals the arithmetic mean of the absolute-scale hourly temperatures of
the (municipality, state, calendar day) group of the input records, minus
273.15 — the conversion happens exactly once, after the mean, and no
earlier stage (sorting, differencing, clamping, day bucketing) alters the
temperature values. -/
theorem daily_t2m_is_group_mean (rows : List Row) (d : Daily)
    (hd : d ∈ df_diario rows) :
    d.t2m =
      ((rows.filter (fun r => dayKey r = (d.municipio, d.uf, d.data_dia))).map Row.t2m).sum /
        ((rows.filter (fun r => dayKey r = (d.municipio, d.uf, d.data_dia))).length : ℚ) -
      273.15 := by
  unfold df_diario at hd
  obtain ⟨d0, hd0, rfl⟩ := List.mem_map.mp hd
  obtain ⟨k, hk, rfl⟩ := List.mem_map.mp hd0
  obtain ⟨k1, k2, k3⟩ := k
  simp only [conv_t2m, agg_group]
  rw [(grp_proj (k1, k2, k3) (tp_dif_walk [] (sort_previsoes rows))).1,
    (grp_proj (k1, k2, k3) (tp_dif_walk [] (sort_previsoes rows))).2,
    tp_dif_walk_map_fst (sort_previsoes rows) []]
  have h3 : ((sort_previsoes rows).filter (fun r => dayKey r = (k1, k2, k3))).Perm
      (rows.filter (fun r => dayKey r = (k1, k2, k3))) :=
    (List.perm_insertionSort rowLe rows).filter _
  rw [List.Perm.sum_eq (h3.map Row.t2m), List.Perm.length_eq h3]

/-- A single hourly record at forecast hour 5 with temperature 300 K. -/
def ex4 : List Row :=
  [{ municipio := "A", uf := "S", data_previsao := 5, t2m := 300, tp := 1, u10 := 2, v10 := 3 }]

/-- The daily record the pipeline produces for ex4. -/
def d4 : Daily :=
  { municipio := "A", uf := "S", data_dia := 0, t2m := 26.85, tp := 1, u10 := 2, v10 := 3 }

/-- Witness for C4: for the single 300 K record, the daily temperature is
the group mean 300 converted once, 26.85 °C. -/
theorem daily_t2m_is_group_mean_witness :
    d4.t2m =
      ((ex4.filter (fun r => dayKey r = (d4.municipio, d4.uf, d4.data_dia))).map Row.t2m).sum /
        ((ex4.filter (fun r => dayKey r = (d4.municipio, d4.uf, d4.data_dia))).length : ℚ) -
      273.15 :=
  daily_t2m_is_group_mean ex4 d4 (by
    norm_num [df_diario, chaves, ex4, d4, sort_previsoes, List.insertionSort,
      List.orderedInsert, rowLe, tp_dif_walk, alookup, max_def, dayKey,
      agg_group, conv_t2m, Daily.mk.injEq])
